import Mathlib

/-!
Shallow embedding of the TALMID static-site front end
(`src/אתר חדש/js/app.js` and the two script variants in
`src/unnamed/part_003`).  The JS data documents are duck-typed: the
aggregation and lookup helpers guard every structural field with
`(x || [])`, so a missing `groups`, `students` or `grades` field is
treated as the empty sequence.  We model those fields as `Option`
(`none` = field absent) and the guard as `Option.getD []`.
-/

namespace Talmid

/-- A teaching group: `{ id, name, teacher, students }`.
`students` is `none` when the JSON record lacks the field. -/
structure Group where
  id : String
  name : String
  teacher : String
  students : Option (List String)
deriving Repr, DecidableEq

/-- A grade record: `{ key, label, groups }`.
`groups` is `none` when the JSON record lacks the field. -/
structure Grade where
  key : String
  label : String
  groups : Option (List Group)
deriving Repr, DecidableEq

/-- The roster document (`data.json`): `{ grades }`. -/
structure RosterData where
  grades : Option (List Grade)
deriving Repr, DecidableEq

/-- The config document (`config.json`): `{ title, subtitle, managedBy }`. -/
structure Config where
  title : String
  subtitle : String
  managedBy : String
deriving Repr, DecidableEq

/-- The JS guard `(grp.students || [])`. -/
def studentsOf (grp : Group) : List String :=
  grp.students.getD []

/-- The JS guard `(grade.groups || [])`. -/
def groupsOf (grade : Grade) : List Group :=
  grade.groups.getD []

/-- The JS guard `(data.grades || [])`. -/
def gradesOf (data : RosterData) : List Grade :=
  data.grades.getD []

/-- `sumStudentsInGrade(grade)`:
`(grade.groups || []).reduce((acc, grp) => acc + (grp.students || []).length, 0)`. -/
def sumStudentsInGrade (grade : Grade) : Nat :=
  (groupsOf grade).foldl (fun acc grp => acc + (studentsOf grp).length) 0

/-- `sumAllStudents(data)`:
`(data.grades || []).reduce((acc, grade) => acc + sumStudentsInGrade(grade), 0)`. -/
def sumAllStudents (data : RosterData) : Nat :=
  (gradesOf data).foldl (fun acc grade => acc + sumStudentsInGrade grade) 0

/-- `findGrade(data, gradeKey)`:
`(data.grades || []).find((g) => g.key === gradeKey) || null`.
JS `null` is modelled as `none`. -/
def findGrade (data : RosterData) (gradeKey : String) : Option Grade :=
  (gradesOf data).find? (fun g => g.key == gradeKey)

/-- `findGroup(grade, groupId)`:
`(grade.groups || []).find((gr) => gr.id === groupId) || null`. -/
def findGroup (grade : Grade) (groupId : String) : Option Group :=
  (groupsOf grade).find? (fun gr => gr.id == groupId)

/-- UTF-8 byte sequence of a character (by code point ranges). -/
def utf8Bytes (c : Char) : List Nat :=
  let n := c.toNat
  if n < 128 then [n]
  else if n < 2048 then [192 + n / 64, 128 + n % 64]
  else if n < 65536 then [224 + n / 4096, 128 + (n / 64) % 64, 128 + n % 64]
  else [240 + n / 262144, 128 + (n / 4096) % 64, 128 + (n / 64) % 64, 128 + n % 64]

/-- Uppercase hexadecimal digit, as used by JS `encodeURIComponent`. -/
def hexDigitChar (n : Nat) : Char :=
  "0123456789ABCDEF".toList.getD n '0'

/-- Percent-encoding of one byte: `%XY` with uppercase hex. -/
def percentByte (b : Nat) : String :=
  String.singleton '%' ++ String.singleton (hexDigitChar (b / 16))
    ++ String.singleton (hexDigitChar (b % 16))

/-- The characters JS `encodeURIComponent` leaves unescaped:
`A-Z a-z 0-9 - _ . ! ~ * ' ( )`. -/
def isUnescapedURIChar (c : Char) : Bool :=
  c.isAlpha || c.isDigit || c == '-' || c == '_' || c == '.'
    || c == '!' || c == '~' || c == '*'
    || c.toNat == 39 || c.toNat == 40 || c.toNat == 41

/-- JS `encodeURIComponent`: unescaped characters kept, every other
character percent-encoded byte by byte in UTF-8. -/
def encodeURIComponent (s : String) : String :=
  s.data.foldl
    (fun acc c =>
      if isUnescapedURIChar c then acc.push c
      else acc ++ String.join ((utf8Bytes c).map percentByte))
    ""

/-- Body of the `prefetch(urls)` loop: `if (!href || existing.has(href))
continue;` else append a new prefetch link and record the href. -/
def prefetchStep (acc : List String) (href : String) : List String :=
  if href == "" || acc.contains href then acc else acc ++ [href]

/-- `prefetch(urls)`: the set of already-issued prefetch hrefs is read from
the document head; each non-empty, not-yet-present url is appended as a new
prefetch link.  We model the head's prefetch links as a list of hrefs. -/
def prefetch (existing : List String) (urls : List String) : List String :=
  urls.foldl prefetchStep existing

/-- One grade button rendered on the home page (`renderHome` loop body
output: the anchor href, the title text, and the count shown in the meta
line). -/
structure GradeButton where
  href : String
  label : String
  count : Nat
deriving Repr, DecidableEq

/-- One group card rendered on the grade page (`renderGrade` loop body
output). -/
structure GroupCard where
  href : String
  name : String
  teacher : String
  count : Nat
deriving Repr, DecidableEq

/-- One table row rendered on the group page: the `rowNum` cell text and the
name cell text. -/
structure StudentRow where
  num : String
  name : String
deriving Repr, DecidableEq

/-- The DOM regions the render functions write.  `none` means the region has
not been written (its previous content stands); the static pages are
assumed to contain the target elements, so the `if (!el) return` guards for
absent elements are not modelled. -/
structure Dom where
  dataGrade : Option String
  errorText : Option String
  cfgTitle : Option String
  cfgSubtitle : Option String
  cfgManaged : Option String
  schoolTotal : Option Nat
  gradeButtons : Option (List GradeButton)
  gradeTitle : Option String
  gradeSubtitleTotal : Option Nat
  groupsRegion : Option (List GroupCard)
  groupTitle : Option String
  groupSubtitle : Option String
  studentsRegion : Option (List StudentRow)
  groupTotal : Option Nat
  backHref : Option String
  docTitle : Option String
  prefetched : List String
deriving Repr, DecidableEq

/-- The fixed list `const gradeKeys = ["z", "h", "t"]` of `renderHome`. -/
def gradeKeys : List String := ["z", "h", "t"]

/-- Body of the `renderHome` loop for one key of `gradeKeys`:
`const grade = findGrade(data, key); const label = grade ? grade.label :
"שכבה"; const count = grade ? sumStudentsInGrade(grade) : 0;` and the
anchor `grade.html?g=${encodeURIComponent(key)}`. -/
def homeGradeButton (data : RosterData) (key : String) : GradeButton :=
  match findGrade data key with
  | some grade =>
      { href := "grade.html?g=" ++ encodeURIComponent key
        label := grade.label
        count := sumStudentsInGrade grade }
  | none =>
      { href := "grade.html?g=" ++ encodeURIComponent key
        label := "שכבה"
        count := 0 }

/-- `renderHome(cfg, data)`: sets the neutral grade accent, writes the three
config strings, writes the school total (`sumAllStudents`), prefetches the
three fixed grade pages, and renders one button per key of `gradeKeys`. -/
def renderHome (cfg : Config) (data : RosterData) (dom : Dom) : Dom :=
  let dom := { dom with dataGrade := some "" }
  let dom := { dom with
    cfgTitle := some cfg.title
    cfgSubtitle := some cfg.subtitle
    cfgManaged := some cfg.managedBy }
  let dom := { dom with schoolTotal := some (sumAllStudents data) }
  let dom := { dom with
    prefetched := prefetch dom.prefetched
      (gradeKeys.map (fun k => "grade.html?g=" ++ encodeURIComponent k)) }
  { dom with gradeButtons := some (gradeKeys.map (homeGradeButton data)) }

/-- `renderGrade(cfg, data, gradeKey)`: sets the grade accent, resolves the
grade; on failure shows `"שכבה לא נמצאה"` and returns.  On success writes
the grade title and total, one card per group, prefetch hints for the group
pages, the back-link to home, and the document title. -/
def renderGrade (cfg : Config) (data : RosterData) (gradeKey : String)
    (dom : Dom) : Dom :=
  let dom := { dom with dataGrade := some gradeKey }
  match findGrade data gradeKey with
  | none => { dom with errorText := some "שכבה לא נמצאה" }
  | some grade =>
      let cards := (groupsOf grade).map (fun grp =>
        { href := "group.html?g=" ++ encodeURIComponent gradeKey
            ++ "&group=" ++ encodeURIComponent grp.id
          name := grp.name
          teacher := grp.teacher
          count := (studentsOf grp).length : GroupCard })
      { dom with
        gradeTitle := some grade.label
        gradeSubtitleTotal := some (sumStudentsInGrade grade)
        groupsRegion := some cards
        prefetched := prefetch dom.prefetched (cards.map GroupCard.href)
        backHref := some "index.html"
        docTitle := some cfg.title }

/-- `renderGroup(cfg, data, gradeKey, groupId)`: sets the grade accent,
resolves the grade (failure: `"שכבה לא נמצאה"`), then the group within it
(failure: `"הקבצה לא נמצאה"`); on success writes the group title and
teacher, one table row per student with a 1-based row number, the group
total, the back-link to the grade page, and the document title. -/
def renderGroup (cfg : Config) (data : RosterData) (gradeKey groupId : String)
    (dom : Dom) : Dom :=
  let dom := { dom with dataGrade := some gradeKey }
  match findGrade data gradeKey with
  | none => { dom with errorText := some "שכבה לא נמצאה" }
  | some grade =>
      match findGroup grade groupId with
      | none => { dom with errorText := some "הקבצה לא נמצאה" }
      | some grp =>
          let students := studentsOf grp
          { dom with
            groupTitle := some grp.name
            groupSubtitle := some grp.teacher
            studentsRegion := some (students.enum.map
              (fun p => StudentRow.mk (toString (p.1 + 1)) p.2))
            groupTotal := some students.length
            backHref := some ("grade.html?g=" ++ encodeURIComponent gradeKey)
            docTitle := some cfg.title }

/-- `SESSION_CACHE_TTL_MS = 90 * 1000` (TTL variant). -/
def SESSION_CACHE_TTL_MS : Nat := 90 * 1000

/-- A sessionStorage cache entry under `SESSION_CACHE_KEY` in the TTL
variant: `{ ts, cfg, data }`.  Each field is `Option` because the JS code
guards `typeof cached.ts === "number" && cached.cfg && cached.data`. -/
structure CacheEntry where
  ts : Option Nat
  cfg : Option Config
  data : Option RosterData
deriving Repr, DecidableEq

/-- A fetch response: `ok` is the HTTP success flag, `json` is the parsed
body (`none` when `res.json()` would throw a parse error). -/
structure Response (α : Type) where
  ok : Bool
  json : Option α
deriving Repr, DecidableEq

/-- The failure conditions of the load pipelines.  The first four are the
distinct `Error` messages of the TTL variant (`cfg fetch failed`,
`data fetch failed`, `cfg json parse failed`, `data json parse failed`);
`fetchFailed` is the single `Error("fetch failed")` of the other variants,
whose parse failures surface as the json parse exception itself. -/
inductive LoadErr where
  | cfgFetchFailed
  | dataFetchFailed
  | cfgParseFailed
  | dataParseFailed
  | fetchFailed
deriving Repr, DecidableEq

/-- Classifies a `LoadErr` as a fetch failure (non-success response). -/
def LoadErr.fetchKind : LoadErr → Bool
  | .cfgFetchFailed => true
  | .dataFetchFailed => true
  | .fetchFailed => true
  | _ => false

/-- Classifies a `LoadErr` as a body-parse failure. -/
def LoadErr.parseKind : LoadErr → Bool
  | .cfgParseFailed => true
  | .dataParseFailed => true
  | _ => false

/-- Result of one run of a load pipeline: the returned pair or the failure,
whether the network was used, and the cache write performed (if any). -/
structure LoadOutcome (γ : Type) where
  result : Except LoadErr (Config × RosterData)
  networkUsed : Bool
  cacheWrite : Option γ
deriving Repr

/-- Network path of the TTL-variant `loadAll` (part_003, lines 396-425):
checks `cfgRes.ok` then `dataRes.ok` with distinct messages, parses each
body with distinct messages, then writes `{ ts: now, cfg, data }` to the
session cache and returns the pair. -/
def loadAllTTLNet (now : Nat) (cfgRes : Response Config)
    (dataRes : Response RosterData) : LoadOutcome CacheEntry :=
  if cfgRes.ok = false then ⟨.error .cfgFetchFailed, true, none⟩
  else if dataRes.ok = false then ⟨.error .dataFetchFailed, true, none⟩
  else
    match cfgRes.json with
    | none => ⟨.error .cfgParseFailed, true, none⟩
    | some cfg =>
        match dataRes.json with
        | none => ⟨.error .dataParseFailed, true, none⟩
        | some data =>
            ⟨.ok (cfg, data), true, some ⟨some now, some cfg, some data⟩⟩

/-- TTL-variant `loadAll` (part_003, lines 380-426): returns the cached
pair without any network request when the entry exists, holds a numeric
timestamp and both documents, and `now - ts <= SESSION_CACHE_TTL_MS`;
otherwise fetches. -/
def loadAllTTL (now : Nat) (cache : Option CacheEntry)
    (cfgRes : Response Config) (dataRes : Response RosterData) :
    LoadOutcome CacheEntry :=
  match cache with
  | some c =>
      match c.ts, c.cfg, c.data with
      | some ts, some cfg, some data =>
          if now - ts ≤ SESSION_CACHE_TTL_MS then ⟨.ok (cfg, data), false, none⟩
          else loadAllTTLNet now cfgRes dataRes
      | _, _, _ => loadAllTTLNet now cfgRes dataRes
  | none => loadAllTTLNet now cfgRes dataRes

/-- Network path of the simple-cache `loadAll` (part_003, lines 758-774):
a single `"fetch failed"` error if either response is not ok, then the two
parses (whose failures are the json exceptions), then both cache writes. -/
def loadAllSimpleNet (cfgRes : Response Config)
    (dataRes : Response RosterData) : LoadOutcome (Config × RosterData) :=
  if cfgRes.ok = false || dataRes.ok = false then ⟨.error .fetchFailed, true, none⟩
  else
    match cfgRes.json with
    | none => ⟨.error .cfgParseFailed, true, none⟩
    | some cfg =>
        match dataRes.json with
        | none => ⟨.error .dataParseFailed, true, none⟩
        | some data => ⟨.ok (cfg, data), true, some (cfg, data)⟩

/-- Simple-cache `loadAll` (part_003, lines 744-775): two sessionStorage
keys, no TTL.  `cachedCfg`/`cachedData` are `none` when the key is absent
and `some none` when the stored string is present but does not parse (the
parse exception is caught and the network path is taken). -/
def loadAllSimple (cachedCfg : Option (Option Config))
    (cachedData : Option (Option RosterData)) (cfgRes : Response Config)
    (dataRes : Response RosterData) : LoadOutcome (Config × RosterData) :=
  match cachedCfg, cachedData with
  | some pc, some pd =>
      match pc, pd with
      | some cfg, some data => ⟨.ok (cfg, data), false, none⟩
      | _, _ => loadAllSimpleNet cfgRes dataRes
  | _, _ => loadAllSimpleNet cfgRes dataRes

/-- Uncached `loadAll` of `src/אתר חדש/js/app.js` (lines 218-226): always
fetches; a single `"fetch failed"` error if either response is not ok, and
the json parse exceptions otherwise. -/
def loadAllPlain (cfgRes : Response Config)
    (dataRes : Response RosterData) : LoadOutcome Unit :=
  if cfgRes.ok = false || dataRes.ok = false then ⟨.error .fetchFailed, true, none⟩
  else
    match cfgRes.json with
    | none => ⟨.error .cfgParseFailed, true, none⟩
    | some cfg =>
        match dataRes.json with
        | none => ⟨.error .dataParseFailed, true, none⟩
        | some data => ⟨.ok (cfg, data), true, none⟩

/-- The URL resolved by `new URL(href, window.location.href)`. -/
structure ResolvedUrl where
  origin : String
  pathname : String
  href : String
deriving Repr, DecidableEq

/-- The anchor found by `ev.target.closest("a[href]")`: its `target`
property (`""` when the attribute is absent), whether it has a `download`
attribute, its raw `href` attribute (`getAttribute("href") || ""`), and the
result of URL resolution (`none` when the `URL` constructor throws). -/
structure Anchor where
  target : String
  download : Bool
  href : String
  resolved : Option ResolvedUrl
deriving Repr, DecidableEq

/-- A click event as seen by the `installFastNav` listener. -/
structure ClickEvent where
  anchor : Option Anchor
  defaultPrevented : Bool
  button : Nat
  metaKey : Bool
  ctrlKey : Bool
  shiftKey : Bool
  altKey : Bool
deriving Repr, DecidableEq

/-- What the click listener does: let the browser handle the click, or
suppress it (`preventDefault`) and navigate to `href` after `delayMs`. -/
inductive NavAction where
  | passThrough
  | intercept (href : String) (delayMs : Nat)
deriving Repr, DecidableEq

/-- The `installFastNav` click listener (guard chain of part_003,
lines 61-90 and 501-529; the two variants differ only in the delay). -/
def fastNavClick (delayMs : Nat) (locOrigin : String) (ev : ClickEvent) :
    NavAction :=
  match ev.anchor with
  | none => .passThrough
  | some a =>
      if ev.defaultPrevented then .passThrough
      else if ev.button != 0 then .passThrough
      else if ev.metaKey || ev.ctrlKey || ev.shiftKey || ev.altKey then .passThrough
      else if a.target != "" && a.target != "_self" then .passThrough
      else if a.download then .passThrough
      else if a.href == "" || a.href.startsWith "#" then .passThrough
      else
        match a.resolved with
        | none => .passThrough
        | some url =>
            if url.origin != locOrigin then .passThrough
            else if !(url.pathname.endsWith ".html") then .passThrough
            else .intercept url.href delayMs

/-- `installFastNav` of the TTL variant: 60 ms delay. -/
def installFastNavV1 (locOrigin : String) (ev : ClickEvent) : NavAction :=
  fastNavClick 60 locOrigin ev

/-- `installFastNav` of the simple-cache variant: 120 ms delay. -/
def installFastNavV2 (locOrigin : String) (ev : ClickEvent) : NavAction :=
  fastNavClick 120 locOrigin ev

/-- Refinement side for C8, following the spec's words: intercept exactly
the primary-button, no-modifier, not-already-handled clicks on a resolvable
same-origin anchor with self target, no download attribute, and a
non-empty, non-fragment href whose resolved path is an `.html` page of the
site; every other click passes through unmodified. -/
def fastNavSpecModel (delayMs : Nat) (locOrigin : String) (ev : ClickEvent) :
    NavAction :=
  match ev.anchor with
  | none => .passThrough
  | some a =>
      match a.resolved with
      | none => .passThrough
      | some url =>
          if !ev.defaultPrevented && ev.button == 0
              && !(ev.metaKey || ev.ctrlKey || ev.shiftKey || ev.altKey)
              && (a.target == "" || a.target == "_self")
              && !a.download
              && a.href != "" && !(a.href.startsWith "#")
              && url.origin == locOrigin && url.pathname.endsWith ".html"
          then .intercept url.href delayMs
          else .passThrough

end Talmid

namespace Talmid

/-- A config document for the concrete scenarios. -/
def cfg0 : Config := ⟨"חטיבת הביניים", "מיפוי הקבצות", "הנהלה"⟩

/-- The group of the spec's example scenario:
`{id: "z_a", name: "ז הקבצה א", teacher: "אילנית רז", students: ["א","ב","ג"]}`. -/
def grp0 : Group := ⟨"z_a", "ז הקבצה א", "אילנית רז", some ["א", "ב", "ג"]⟩

/-- Grade `z` of the example scenario, containing only `grp0`. -/
def grade0 : Grade := ⟨"z", "שכבה ז", some [grp0]⟩

/-- Roster of the example scenario: a single grade `z`. -/
def data0 : RosterData := ⟨some [grade0]⟩

/-- A roster whose only grade has a key outside the fixed home-page list. -/
def dataQ : RosterData := ⟨some [⟨"q", "שכבה ק", some []⟩]⟩

/-- A fresh page state: no region written yet, no prefetch links. -/
def emptyDom : Dom :=
  ⟨none, none, none, none, none, none, none, none, none,
   none, none, none, none, none, none, none, []⟩

/-- A group with an empty students array. -/
def grpE : Group := ⟨"z_a", "א", "ב", some []⟩

/-- A grade whose only group has an empty students array. -/
def gradeE : Grade := ⟨"z", "שכבה ז", some [grpE]⟩

/-- A roster in which every group's students sequence is empty. -/
def dataE : RosterData := ⟨some [gradeE]⟩

end Talmid

namespace Talmid

/-- C1 helper: `foldl (+f)` over a list is the sum of the mapped list. -/
theorem foldl_add_eq_sum_map {α : Type} (f : α → Nat) (l : List α) :
    l.foldl (fun acc x => acc + f x) 0 = (l.map f).sum := by
  have h : ∀ (l : List α) (n : Nat),
      l.foldl (fun acc x => acc + f x) n = n + (l.map f).sum := by
    intro l
    induction l with
    | nil => intro n; simp
    | cons a t ih =>
      intro n
      simp [List.foldl_cons, ih, Nat.add_assoc]
  simpa using h l 0

/-- A href already recorded stays recorded by one `prefetch` loop step. -/
theorem mem_prefetchStep (acc : List String) (href u : String)
    (hu : u ∈ acc) : u ∈ prefetchStep acc href := by
  unfold prefetchStep
  split
  · exact hu
  · exact List.mem_append_left _ hu

/-- A non-empty href is recorded by its own `prefetch` loop step. -/
theorem self_mem_prefetchStep (acc : List String) (u : String)
    (hne : u ≠ "") : u ∈ prefetchStep acc u := by
  unfold prefetchStep
  split
  · next hcond =>
      have hcond' : u = "" ∨ u ∈ acc := by simpa using hcond
      rcases hcond' with h | h
      · exact absurd h hne
      · exact h
  · exact List.mem_append_right _ (List.mem_singleton_self u)

/-- Every href already in the head stays in the head after `prefetch`. -/
theorem mem_prefetch_of_mem_existing (urls : List String) :
    ∀ (existing : List String) (u : String), u ∈ existing →
      u ∈ prefetch existing urls := by
  induction urls with
  | nil => intro existing u hu; simpa [prefetch] using hu
  | cons h t ih =>
      intro existing u hu
      simp only [prefetch, List.foldl_cons]
      exact ih (prefetchStep existing h) u (mem_prefetchStep existing h u hu)

/-- Every non-empty requested url ends up among the prefetch links. -/
theorem mem_prefetch_of_mem_urls (urls : List String) :
    ∀ (existing : List String) (u : String), u ∈ urls → u ≠ "" →
      u ∈ prefetch existing urls := by
  induction urls with
  | nil => intro existing u hu _; cases hu
  | cons h t ih =>
      intro existing u hu hne
      simp only [prefetch, List.foldl_cons]
      rcases List.mem_cons.mp hu with rfl | hmem
      · exact mem_prefetch_of_mem_existing t (prefetchStep existing u) u
          (self_mem_prefetchStep existing u hne)
      · exact ih (prefetchStep existing h) u hmem hne

end Talmid

/-- C1: for every grade `G`, the computed grade size `sumStudentsInGrade G`
equals the sum over `G`'s groups of the length of each group's students
sequence, and for every roster `R`, the computed school size
`sumAllStudents R` equals the sum of the grade sizes of all grades of `R`. -/
theorem Talmid.c1_grade_and_school_sizes (G : Talmid.Grade) (R : Talmid.RosterData) :
    Talmid.sumStudentsInGrade G
        = ((Talmid.groupsOf G).map (fun g => (Talmid.studentsOf g).length)).sum
    ∧ Talmid.sumAllStudents R
        = ((Talmid.gradesOf R).map Talmid.sumStudentsInGrade).sum := by
  constructor
  · exact Talmid.foldl_add_eq_sum_map _ _
  · exact Talmid.foldl_add_eq_sum_map _ _

/-- C2: for every resolved group, `renderGroup` renders one table row per
student, with 1-based row numbers as decimal strings and the name cells in
input order, and a group total equal to the length of the students
sequence. -/
theorem Talmid.c2_renderGroup_table (cfg : Talmid.Config) (data : Talmid.RosterData)
    (gradeKey groupId : String) (dom : Talmid.Dom) (grade : Talmid.Grade)
    (grp : Talmid.Group)
    (hg : Talmid.findGrade data gradeKey = some grade)
    (hgr : Talmid.findGroup grade groupId = some grp) :
    ∃ rows : List Talmid.StudentRow,
      (Talmid.renderGroup cfg data gradeKey groupId dom).studentsRegion = some rows
      ∧ rows.length = (Talmid.studentsOf grp).length
      ∧ (∀ i (h : i < rows.length) (h2 : i < (Talmid.studentsOf grp).length),
          (rows.get ⟨i, h⟩).num = toString (i + 1)
          ∧ (rows.get ⟨i, h⟩).name = (Talmid.studentsOf grp).get ⟨i, h2⟩)
      ∧ (Talmid.renderGroup cfg data gradeKey groupId dom).groupTotal
          = some (Talmid.studentsOf grp).length := by
  refine ⟨(Talmid.studentsOf grp).enum.map
      (fun p => Talmid.StudentRow.mk (toString (p.1 + 1)) p.2), ?_, ?_, ?_, ?_⟩
  · simp [Talmid.renderGroup, hg, hgr]
  · simp
  · intro i h h2
    constructor
    · simp
    · simp
  · simp [Talmid.renderGroup, hg, hgr]

/-- C2 witness: the spec's example scenario.  Grade `z`, group `z_a`,
students `["א","ב","ג"]`: three rows numbered `"1"`, `"2"`, `"3"` with the
names in input order, and a group total of `3`. -/
theorem Talmid.c2_witness :
    (Talmid.renderGroup Talmid.cfg0 Talmid.data0 "z" "z_a" Talmid.emptyDom).studentsRegion
        = some [⟨"1", "א"⟩, ⟨"2", "ב"⟩, ⟨"3", "ג"⟩]
    ∧ (Talmid.renderGroup Talmid.cfg0 Talmid.data0 "z" "z_a" Talmid.emptyDom).groupTotal
        = some 3
    ∧ ∃ rows : List Talmid.StudentRow,
        (Talmid.renderGroup Talmid.cfg0 Talmid.data0 "z" "z_a" Talmid.emptyDom).studentsRegion
            = some rows
        ∧ rows.length = (Talmid.studentsOf Talmid.grp0).length
        ∧ (∀ i (h : i < rows.length) (h2 : i < (Talmid.studentsOf Talmid.grp0).length),
            (rows.get ⟨i, h⟩).num = toString (i + 1)
            ∧ (rows.get ⟨i, h⟩).name = (Talmid.studentsOf Talmid.grp0).get ⟨i, h2⟩)
        ∧ (Talmid.renderGroup Talmid.cfg0 Talmid.data0 "z" "z_a" Talmid.emptyDom).groupTotal
            = some (Talmid.studentsOf Talmid.grp0).length :=
  ⟨by decide, by decide,
    Talmid.c2_renderGroup_table Talmid.cfg0 Talmid.data0 "z" "z_a" Talmid.emptyDom
      Talmid.grade0 Talmid.grp0 (by decide) (by decide)⟩

/-- C4: when the grade key does not resolve, `renderGrade` only sets the
grade accent and the localized "grade not found" error; every other region,
the groups region included, is left untouched. -/
theorem Talmid.c4_renderGrade_not_found (cfg : Talmid.Config)
    (data : Talmid.RosterData) (gradeKey : String) (dom : Talmid.Dom)
    (h : Talmid.findGrade data gradeKey = none) :
    Talmid.renderGrade cfg data gradeKey dom
      = { dom with dataGrade := some gradeKey, errorText := some "שכבה לא נמצאה" }
    ∧ (Talmid.renderGrade cfg data gradeKey dom).groupsRegion = dom.groupsRegion := by
  constructor
  · simp [Talmid.renderGrade, h]
  · simp [Talmid.renderGrade, h]

/-- C4 witness: grade key `"x"` is absent from the example roster; the
grade page shows the localized error and the groups region stays empty. -/
theorem Talmid.c4_witness :
    Talmid.findGrade Talmid.data0 "x" = none
    ∧ Talmid.renderGrade Talmid.cfg0 Talmid.data0 "x" Talmid.emptyDom
        = { Talmid.emptyDom with dataGrade := some "x", errorText := some "שכבה לא נמצאה" }
    ∧ (Talmid.renderGrade Talmid.cfg0 Talmid.data0 "x" Talmid.emptyDom).groupsRegion = none :=
  ⟨by decide,
    (Talmid.c4_renderGrade_not_found Talmid.cfg0 Talmid.data0 "x" Talmid.emptyDom (by decide)).1,
    (Talmid.c4_renderGrade_not_found Talmid.cfg0 Talmid.data0 "x" Talmid.emptyDom (by decide)).2⟩

/-- C5: when the grade resolves but the group id does not, `renderGroup`
shows the group not-found error `"הקבצה לא נמצאה"` (not the grade error
`"שכבה לא נמצאה"`) and stops: the student table and every other region stay
untouched. -/
theorem Talmid.c5_renderGroup_group_not_found (cfg : Talmid.Config)
    (data : Talmid.RosterData) (gradeKey groupId : String) (dom : Talmid.Dom)
    (grade : Talmid.Grade)
    (hg : Talmid.findGrade data gradeKey = some grade)
    (hgr : Talmid.findGroup grade groupId = none) :
    Talmid.renderGroup cfg data gradeKey groupId dom
      = { dom with dataGrade := some gradeKey, errorText := some "הקבצה לא נמצאה" }
    ∧ (Talmid.renderGroup cfg data gradeKey groupId dom).errorText ≠ some "שכבה לא נמצאה"
    ∧ (Talmid.renderGroup cfg data gradeKey groupId dom).studentsRegion = dom.studentsRegion := by
  refine ⟨?_, ?_, ?_⟩
  · simp [Talmid.renderGroup, hg, hgr]
  · simp [Talmid.renderGroup, hg, hgr]
  · simp [Talmid.renderGroup, hg, hgr]

/-- C5 witness: grade `z` resolves, group id `"nope"` does not; the error
shown is the group one and the student table stays empty. -/
theorem Talmid.c5_witness :
    Talmid.findGrade Talmid.data0 "z" = some Talmid.grade0
    ∧ Talmid.findGroup Talmid.grade0 "nope" = none
    ∧ Talmid.renderGroup Talmid.cfg0 Talmid.data0 "z" "nope" Talmid.emptyDom
        = { Talmid.emptyDom with dataGrade := some "z", errorText := some "הקבצה לא נמצאה" }
    ∧ (Talmid.renderGroup Talmid.cfg0 Talmid.data0 "z" "nope" Talmid.emptyDom).errorText
        ≠ some "שכבה לא נמצאה" :=
  ⟨by decide, by decide,
    (Talmid.c5_renderGroup_group_not_found Talmid.cfg0 Talmid.data0 "z" "nope"
      Talmid.emptyDom Talmid.grade0 (by decide) (by decide)).1,
    (Talmid.c5_renderGroup_group_not_found Talmid.cfg0 Talmid.data0 "z" "nope"
      Talmid.emptyDom Talmid.grade0 (by decide) (by decide)).2.1⟩

/-- C3 counterexample: the claim "one navigable entry per grade of the
roster" fails on the code.  `renderHome` iterates over the fixed key list
`["z", "h", "t"]`, not over the roster: for the concrete roster `dataQ`
whose single grade has key `"q"` and label `"שכבה ק"`, the home page shows
three buttons, all with the placeholder label `"שכבה"` and count `0`, none
for grade `"q"`, and prefetches only the three fixed grade pages. -/
theorem Talmid.c3_counterexample :
    (Talmid.gradesOf Talmid.dataQ).length = 1
    ∧ (Talmid.renderHome Talmid.cfg0 Talmid.dataQ Talmid.emptyDom).gradeButtons
        = some [⟨"grade.html?g=z", "שכבה", 0⟩, ⟨"grade.html?g=h", "שכבה", 0⟩,
                ⟨"grade.html?g=t", "שכבה", 0⟩]
    ∧ (Talmid.renderHome Talmid.cfg0 Talmid.dataQ Talmid.emptyDom).prefetched
        = ["grade.html?g=z", "grade.html?g=h", "grade.html?g=t"] := by
  refine ⟨by decide, by decide, by decide⟩

/-- C3 (amended): for every roster, `renderHome` shows the school-wide
total `sumAllStudents`, renders exactly one navigable entry per key of the
fixed list `gradeKeys = ["z","h","t"]` — with the resolved grade's label
and computed grade size when the key is present in the roster, and the
placeholder label `"שכבה"` with count `0` otherwise — and issues prefetch
hints for the three fixed grade pages. -/
theorem Talmid.c3_amended_renderHome (cfg : Talmid.Config)
    (data : Talmid.RosterData) (dom : Talmid.Dom) :
    (Talmid.renderHome cfg data dom).schoolTotal = some (Talmid.sumAllStudents data)
    ∧ (Talmid.renderHome cfg data dom).gradeButtons
        = some (Talmid.gradeKeys.map (Talmid.homeGradeButton data))
    ∧ (∀ key ∈ Talmid.gradeKeys, ∃ b,
        b ∈ Talmid.gradeKeys.map (Talmid.homeGradeButton data)
        ∧ b.href = "grade.html?g=" ++ Talmid.encodeURIComponent key
        ∧ ((∃ grade, Talmid.findGrade data key = some grade
              ∧ b.label = grade.label ∧ b.count = Talmid.sumStudentsInGrade grade)
           ∨ (Talmid.findGrade data key = none ∧ b.label = "שכבה" ∧ b.count = 0)))
    ∧ (∀ key ∈ Talmid.gradeKeys,
        ("grade.html?g=" ++ Talmid.encodeURIComponent key)
          ∈ (Talmid.renderHome cfg data dom).prefetched) := by
  refine ⟨?_, ?_, ?_, ?_⟩
  · simp [Talmid.renderHome]
  · simp [Talmid.renderHome]
  · intro key hk
    refine ⟨Talmid.homeGradeButton data key, List.mem_map_of_mem _ hk, ?_, ?_⟩
    · cases hfind : Talmid.findGrade data key <;>
        simp [Talmid.homeGradeButton, hfind]
    · cases hfind : Talmid.findGrade data key with
      | none => exact Or.inr ⟨rfl, by simp [Talmid.homeGradeButton, hfind]⟩
      | some grade =>
          exact Or.inl ⟨grade, rfl, by simp [Talmid.homeGradeButton, hfind]⟩
  · intro key hk
    have hurl : ("grade.html?g=" ++ Talmid.encodeURIComponent key)
        ∈ Talmid.gradeKeys.map (fun k => "grade.html?g=" ++ Talmid.encodeURIComponent k) :=
      List.mem_map_of_mem _ hk
    have hne : ("grade.html?g=" ++ Talmid.encodeURIComponent key) ≠ "" := by
      intro hcontra
      have hlen := congrArg String.length hcontra
      simp [String.length_append] at hlen
      exact absurd hlen.1 (by decide)
    have := Talmid.mem_prefetch_of_mem_urls
      (Talmid.gradeKeys.map (fun k => "grade.html?g=" ++ Talmid.encodeURIComponent k))
      dom.prefetched ("grade.html?g=" ++ Talmid.encodeURIComponent key) hurl hne
    simpa [Talmid.renderHome] using this

/-- C3 witness for the amended theorem: for the example roster the home
page shows a school total of `3` and a prefetch hint for grade `z`. -/
theorem Talmid.c3_amended_witness :
    (Talmid.renderHome Talmid.cfg0 Talmid.data0 Talmid.emptyDom).schoolTotal = some 3
    ∧ "grade.html?g=z" ∈ (Talmid.renderHome Talmid.cfg0 Talmid.data0 Talmid.emptyDom).prefetched := by
  have h := Talmid.c3_amended_renderHome Talmid.cfg0 Talmid.data0 Talmid.emptyDom
  constructor
  · rw [h.1]; decide
  · have h2 := h.2.2.2 "z" (by decide)
    have he : ("grade.html?g=" ++ Talmid.encodeURIComponent "z") = "grade.html?g=z" := by
      decide
    rwa [he] at h2

/-- C9: for every roster in which every group's students sequence is empty,
all computed counts are 0 — each group size, each grade size, and the school
size — and each render function completes with its normal output: the home
page shows a school total of 0 and no error, and the grade and group pages
(for resolved keys) show totals of 0 and no error. -/
theorem Talmid.c9_empty_students (data : Talmid.RosterData)
    (h : ∀ grade ∈ Talmid.gradesOf data, ∀ grp ∈ Talmid.groupsOf grade,
        Talmid.studentsOf grp = []) :
    (∀ grade ∈ Talmid.gradesOf data, ∀ grp ∈ Talmid.groupsOf grade,
        (Talmid.studentsOf grp).length = 0)
    ∧ (∀ grade ∈ Talmid.gradesOf data, Talmid.sumStudentsInGrade grade = 0)
    ∧ Talmid.sumAllStudents data = 0
    ∧ (∀ cfg dom,
        (Talmid.renderHome cfg data dom).schoolTotal = some 0
        ∧ (Talmid.renderHome cfg data dom).errorText = dom.errorText)
    ∧ (∀ cfg dom gradeKey grade, Talmid.findGrade data gradeKey = some grade →
        (Talmid.renderGrade cfg data gradeKey dom).gradeSubtitleTotal = some 0
        ∧ (Talmid.renderGrade cfg data gradeKey dom).errorText = dom.errorText)
    ∧ (∀ cfg dom gradeKey groupId grade grp,
        Talmid.findGrade data gradeKey = some grade →
        Talmid.findGroup grade groupId = some grp →
        (Talmid.renderGroup cfg data gradeKey groupId dom).groupTotal = some 0
        ∧ (Talmid.renderGroup cfg data gradeKey groupId dom).errorText = dom.errorText) := by
  have hlen : ∀ grade ∈ Talmid.gradesOf data, ∀ grp ∈ Talmid.groupsOf grade,
      (Talmid.studentsOf grp).length = 0 := by
    intro grade hg grp hgr
    rw [h grade hg grp hgr]
    rfl
  have hgrade : ∀ grade ∈ Talmid.gradesOf data, Talmid.sumStudentsInGrade grade = 0 := by
    intro grade hg
    rw [Talmid.sumStudentsInGrade, Talmid.foldl_add_eq_sum_map]
    apply List.sum_eq_zero
    intro x hx
    rcases List.mem_map.mp hx with ⟨grp, hgrp, rfl⟩
    exact hlen grade hg grp hgrp
  have hschool : Talmid.sumAllStudents data = 0 := by
    rw [Talmid.sumAllStudents, Talmid.foldl_add_eq_sum_map]
    apply List.sum_eq_zero
    intro x hx
    rcases List.mem_map.mp hx with ⟨grade, hg, rfl⟩
    exact hgrade grade hg
  refine ⟨hlen, hgrade, hschool, ?_, ?_, ?_⟩
  · intro cfg dom
    constructor
    · simp [Talmid.renderHome, hschool]
    · simp [Talmid.renderHome]
  · intro cfg dom gradeKey grade hg
    have hmem := List.mem_of_find?_eq_some hg
    constructor
    · simp [Talmid.renderGrade, hg, hgrade grade hmem]
    · simp [Talmid.renderGrade, hg]
  · intro cfg dom gradeKey groupId grade grp hg hgr
    have hmemg := List.mem_of_find?_eq_some hg
    have hmemgr := List.mem_of_find?_eq_some hgr
    constructor
    · simp [Talmid.renderGroup, hg, hgr, hlen grade hmemg grp hmemgr]
    · simp [Talmid.renderGroup, hg, hgr]

/-- C9 witness: a concrete roster whose single group has an empty students
array: the school total is 0, the home page shows 0 with no error, and the
group page shows a total of 0 with no error. -/
theorem Talmid.c9_witness :
    Talmid.sumAllStudents Talmid.dataE = 0
    ∧ (Talmid.renderHome Talmid.cfg0 Talmid.dataE Talmid.emptyDom).schoolTotal = some 0
    ∧ (Talmid.renderGroup Talmid.cfg0 Talmid.dataE "z" "z_a"
        Talmid.emptyDom).groupTotal = some 0 := by
  have h := Talmid.c9_empty_students Talmid.dataE (by decide)
  exact ⟨h.2.2.1, (h.2.2.2.1 Talmid.cfg0 Talmid.emptyDom).1,
    (h.2.2.2.2.2 Talmid.cfg0 Talmid.emptyDom "z" "z_a" Talmid.gradeE Talmid.grpE
      (by decide) (by decide)).1⟩

/-- C10: the aggregation and lookup functions are total on records with
missing structural fields: a grade without a `groups` field has size 0, a
roster without a `grades` field has school size 0 and no grade resolves in
it, a grade without a `groups` field resolves no group, a group without a
`students` field has an empty students sequence, and when no element
matches, `findGrade` and `findGroup` return `null` (`none`) rather than
throwing. -/
theorem Talmid.c10_total_on_missing_fields :
    (∀ k l, Talmid.sumStudentsInGrade ⟨k, l, none⟩ = 0)
    ∧ Talmid.sumAllStudents ⟨none⟩ = 0
    ∧ (∀ k, Talmid.findGrade ⟨none⟩ k = none)
    ∧ (∀ k l i, Talmid.findGroup ⟨k, l, none⟩ i = none)
    ∧ (∀ grp : Talmid.Group, grp.students = none → Talmid.studentsOf grp = [])
    ∧ (∀ data key, (∀ g ∈ Talmid.gradesOf data, ¬ g.key = key) →
        Talmid.findGrade data key = none)
    ∧ (∀ grade i, (∀ g ∈ Talmid.groupsOf grade, ¬ g.id = i) →
        Talmid.findGroup grade i = none) := by
  refine ⟨fun k l => rfl, rfl, fun k => rfl, fun k l i => rfl, ?_, ?_, ?_⟩
  · intro grp hgrp
    simp [Talmid.studentsOf, hgrp]
  · intro data key hnone
    apply List.find?_eq_none.mpr
    intro g hg
    simpa using hnone g hg
  · intro grade i hnone
    apply List.find?_eq_none.mpr
    intro g hg
    simpa using hnone g hg

/-- C10 witness: concrete records with the fields absent, and a concrete
failed lookup: grade key `"x"` is not in the example roster and group id
`"nope"` is not in grade `z`, and both lookups return `none`. -/
theorem Talmid.c10_witness :
    Talmid.sumStudentsInGrade ⟨"k", "l", none⟩ = 0
    ∧ Talmid.sumAllStudents ⟨none⟩ = 0
    ∧ Talmid.findGrade ⟨none⟩ "z" = none
    ∧ Talmid.findGroup ⟨"k", "l", none⟩ "z_a" = none
    ∧ Talmid.studentsOf ⟨"i", "n", "t", none⟩ = []
    ∧ Talmid.findGrade Talmid.data0 "x" = none
    ∧ Talmid.findGroup Talmid.grade0 "nope" = none :=
  ⟨Talmid.c10_total_on_missing_fields.1 "k" "l",
   Talmid.c10_total_on_missing_fields.2.1,
   Talmid.c10_total_on_missing_fields.2.2.1 "z",
   Talmid.c10_total_on_missing_fields.2.2.2.1 "k" "l" "z_a",
   Talmid.c10_total_on_missing_fields.2.2.2.2.1 ⟨"i", "n", "t", none⟩ rfl,
   Talmid.c10_total_on_missing_fields.2.2.2.2.2.1 Talmid.data0 "x" (by decide),
   Talmid.c10_total_on_missing_fields.2.2.2.2.2.2 Talmid.grade0 "nope" (by decide)⟩

/-- The network path of the TTL-variant `loadAll` always issues requests. -/
theorem Talmid.loadAllTTLNet_networkUsed (now : Nat) (cfgRes : Talmid.Response Talmid.Config)
    (dataRes : Talmid.Response Talmid.RosterData) :
    (Talmid.loadAllTTLNet now cfgRes dataRes).networkUsed = true := by
  unfold Talmid.loadAllTTLNet
  split
  · rfl
  · split
    · rfl
    · cases cfgRes.json with
      | none => rfl
      | some cfg =>
          cases dataRes.json with
          | none => rfl
          | some data => rfl

/-- The network path of the simple-cache `loadAll` always issues requests. -/
theorem Talmid.loadAllSimpleNet_networkUsed (cfgRes : Talmid.Response Talmid.Config)
    (dataRes : Talmid.Response Talmid.RosterData) :
    (Talmid.loadAllSimpleNet cfgRes dataRes).networkUsed = true := by
  unfold Talmid.loadAllSimpleNet
  split
  · rfl
  · cases cfgRes.json with
    | none => rfl
    | some cfg =>
        cases dataRes.json with
        | none => rfl
        | some data => rfl

/-- C6: a cache entry under the fixed namespace key holding both documents
is returned without any network request — in the TTL variant when its
timestamp is within `SESSION_CACHE_TTL_MS` (90 s) of now, and in the simple
variant unconditionally; when the entry is absent or expired, the load goes
to the network instead. -/
theorem Talmid.c6_cache_behavior (now ts : Nat) (cfg : Talmid.Config)
    (data : Talmid.RosterData) (cfgRes : Talmid.Response Talmid.Config)
    (dataRes : Talmid.Response Talmid.RosterData) :
    (now - ts ≤ Talmid.SESSION_CACHE_TTL_MS →
      Talmid.loadAllTTL now (some ⟨some ts, some cfg, some data⟩) cfgRes dataRes
        = ⟨.ok (cfg, data), false, none⟩)
    ∧ Talmid.loadAllSimple (some (some cfg)) (some (some data)) cfgRes dataRes
        = ⟨.ok (cfg, data), false, none⟩
    ∧ (Talmid.loadAllTTL now none cfgRes dataRes).networkUsed = true
    ∧ (¬ now - ts ≤ Talmid.SESSION_CACHE_TTL_MS →
      (Talmid.loadAllTTL now (some ⟨some ts, some cfg, some data⟩)
          cfgRes dataRes).networkUsed = true)
    ∧ (Talmid.loadAllSimple none none cfgRes dataRes).networkUsed = true := by
  refine ⟨?_, rfl, ?_, ?_, ?_⟩
  · intro h
    simp [Talmid.loadAllTTL, h]
  · exact Talmid.loadAllTTLNet_networkUsed now cfgRes dataRes
  · intro h
    simp only [Talmid.loadAllTTL, if_neg h]
    exact Talmid.loadAllTTLNet_networkUsed now cfgRes dataRes
  · exact Talmid.loadAllSimpleNet_networkUsed cfgRes dataRes

/-- C6 witness: a fresh cache entry (`ts = now`) holding the example pair is
served without network in both variants; an expired entry (`91` s old) and
an absent entry go to the network. -/
theorem Talmid.c6_witness :
    Talmid.loadAllTTL 100000 (some ⟨some 100000, some Talmid.cfg0, some Talmid.data0⟩)
        ⟨true, some Talmid.cfg0⟩ ⟨true, some Talmid.data0⟩
      = ⟨.ok (Talmid.cfg0, Talmid.data0), false, none⟩
    ∧ Talmid.loadAllSimple (some (some Talmid.cfg0)) (some (some Talmid.data0))
        ⟨true, some Talmid.cfg0⟩ ⟨true, some Talmid.data0⟩
      = ⟨.ok (Talmid.cfg0, Talmid.data0), false, none⟩
    ∧ (Talmid.loadAllTTL 191001 (some ⟨some 100000, some Talmid.cfg0, some Talmid.data0⟩)
        ⟨true, some Talmid.cfg0⟩ ⟨true, some Talmid.data0⟩).networkUsed = true
    ∧ (Talmid.loadAllTTL 100000 none
        ⟨true, some Talmid.cfg0⟩ ⟨true, some Talmid.data0⟩).networkUsed = true := by
  have h1 := Talmid.c6_cache_behavior 100000 100000 Talmid.cfg0 Talmid.data0
    ⟨true, some Talmid.cfg0⟩ ⟨true, some Talmid.data0⟩
  have h2 := Talmid.c6_cache_behavior 191001 100000 Talmid.cfg0 Talmid.data0
    ⟨true, some Talmid.cfg0⟩ ⟨true, some Talmid.data0⟩
  exact ⟨h1.1 (by decide), h1.2.1, h2.2.2.2.1 (by decide), h1.2.2.1⟩

/-- C7: in every load variant, on the network path a non-successful
response yields a fetch-failure condition (and no partial pair), and a
response body that fails to parse yields a parse-failure condition that is
distinct from fetch failure. -/
theorem Talmid.c7_failure_taxonomy (now : Nat)
    (cfgRes : Talmid.Response Talmid.Config)
    (dataRes : Talmid.Response Talmid.RosterData) :
    (cfgRes.ok = false ∨ dataRes.ok = false →
      (∃ e, (Talmid.loadAllPlain cfgRes dataRes).result = .error e
          ∧ e.fetchKind = true)
      ∧ (∃ e, (Talmid.loadAllTTL now none cfgRes dataRes).result = .error e
          ∧ e.fetchKind = true)
      ∧ (∃ e, (Talmid.loadAllSimple none none cfgRes dataRes).result = .error e
          ∧ e.fetchKind = true))
    ∧ (cfgRes.ok = true → dataRes.ok = true →
        cfgRes.json = none ∨ dataRes.json = none →
      (∃ e, (Talmid.loadAllPlain cfgRes dataRes).result = .error e
          ∧ e.parseKind = true ∧ e.fetchKind = false)
      ∧ (∃ e, (Talmid.loadAllTTL now none cfgRes dataRes).result = .error e
          ∧ e.parseKind = true ∧ e.fetchKind = false)
      ∧ (∃ e, (Talmid.loadAllSimple none none cfgRes dataRes).result = .error e
          ∧ e.parseKind = true ∧ e.fetchKind = false)) := by
  rcases cfgRes with ⟨cok, cjson⟩
  rcases dataRes with ⟨dok, djson⟩
  constructor
  · intro h
    cases cok <;> cases dok <;>
      simp_all [Talmid.loadAllPlain, Talmid.loadAllTTL, Talmid.loadAllTTLNet,
        Talmid.loadAllSimple, Talmid.loadAllSimpleNet, Talmid.LoadErr.fetchKind]
  · intro hok1 hok2 hjson
    subst hok1
    subst hok2
    cases cjson <;> cases djson <;>
      simp_all [Talmid.loadAllPlain, Talmid.loadAllTTL, Talmid.loadAllTTLNet,
        Talmid.loadAllSimple, Talmid.loadAllSimpleNet, Talmid.LoadErr.fetchKind,
        Talmid.LoadErr.parseKind]

/-- C7 witness: a failed config response yields a fetch failure; a
successful pair of responses whose config body does not parse yields a
parse failure which is not a fetch failure. -/
theorem Talmid.c7_witness :
    (∃ e, (Talmid.loadAllPlain ⟨false, none⟩ ⟨true, some Talmid.data0⟩).result = .error e
        ∧ Talmid.LoadErr.fetchKind e = true)
    ∧ (∃ e, (Talmid.loadAllTTL 0 none ⟨true, none⟩ ⟨true, some Talmid.data0⟩).result = .error e
        ∧ Talmid.LoadErr.parseKind e = true ∧ Talmid.LoadErr.fetchKind e = false) :=
  ⟨((Talmid.c7_failure_taxonomy 0 ⟨false, none⟩ ⟨true, some Talmid.data0⟩).1
      (Or.inl rfl)).1,
   ((Talmid.c7_failure_taxonomy 0 ⟨true, none⟩ ⟨true, some Talmid.data0⟩).2
      rfl rfl (Or.inl rfl)).2.1⟩

/-- C8 helper: a guard chain of early `passThrough` returns equals one
combined condition. -/
theorem Talmid.navGuardChain (b1 b2 b3 b4 b5 b6 b7 b8 b9 b10 : Bool)
    (x : Talmid.NavAction) :
    (if b1 then Talmid.NavAction.passThrough
     else if !b2 then Talmid.NavAction.passThrough
     else if b3 then Talmid.NavAction.passThrough
     else if !b4 && !b5 then Talmid.NavAction.passThrough
     else if b6 then Talmid.NavAction.passThrough
     else if b7 || b8 then Talmid.NavAction.passThrough
     else if !b9 then Talmid.NavAction.passThrough
     else if !b10 then Talmid.NavAction.passThrough
     else x)
    = if !b1 && b2 && !b3 && (b4 || b5) && !b6 && !b7 && !b8 && b9 && b10
      then x else Talmid.NavAction.passThrough := by
  cases b1 <;> cases b2 <;> cases b3 <;> cases b4 <;> cases b5 <;>
    cases b6 <;> cases b7 <;> cases b8 <;> cases b9 <;> cases b10 <;> rfl

/-- C8: both `installFastNav` variants behave exactly as the spec-side
model: they suppress default navigation and navigate programmatically after
the fixed delay (60 ms in the TTL variant, 120 ms in the other) precisely
for primary-button, no-modifier, unhandled clicks on a resolvable
same-origin anchor with a self target, no download attribute, and a
non-empty non-fragment href whose resolved path is an `.html` page; every
other click — external links, non-self targets, download links,
fragment-only links — passes through unmodified. -/
theorem Talmid.c8_fastNav (locOrigin : String) (ev : Talmid.ClickEvent) :
    Talmid.installFastNavV1 locOrigin ev = Talmid.fastNavSpecModel 60 locOrigin ev
    ∧ Talmid.installFastNavV2 locOrigin ev = Talmid.fastNavSpecModel 120 locOrigin ev := by
  have key : ∀ d : Nat,
      Talmid.fastNavClick d locOrigin ev = Talmid.fastNavSpecModel d locOrigin ev := by
    intro d
    obtain ⟨anchor, dp, btn, mk, ck, sk, ak⟩ := ev
    unfold Talmid.fastNavClick Talmid.fastNavSpecModel
    cases anchor with
    | none => rfl
    | some a =>
        obtain ⟨tgt, dl, href, resolved⟩ := a
        cases resolved with
        | none =>
            simp only []
            split_ifs <;> rfl
        | some url =>
            exact Talmid.navGuardChain dp (btn == 0) (mk || ck || sk || ak)
              (tgt == "") (tgt == "_self") dl (href == "")
              (href.startsWith "#") (url.origin == locOrigin)
              (url.pathname.endsWith ".html")
              (Talmid.NavAction.intercept url.href d)
  exact ⟨key 60, key 120⟩
